import Mathlib

/-!
Verification of the task-orchestration layer of the RAG pipeline service
(FastAPI + Celery + Redis).  The task bodies are translated from
`src/app/worker.py`, `src/app/main.py`, `src/app/rag/rag_worker.py` and
`src/app/rag/rag_utilities.py`.  The execution engine itself (queues,
chains, chords, the retry scheduler) is the Celery library, which is not
part of this repository's sources; those parts are modelled from the
specification's description of the engine (sections 3-6 of the spec) and
are marked `Modelled from the spec:` in their doc comments.
-/

namespace RagPipeline

/-- Task result states of the engine's data model (spec section 3). -/
inductive TaskState
  | PENDING
  | RUNNING
  | SUCCESS
  | FAILURE
  | RETRY
deriving DecidableEq, Repr

/-- Outcome of a task body or pipeline stage: a returned value, or a raised
error carrying its message. -/
inductive StageResult (α : Type)
  | success (v : α)
  | failure (e : String)
deriving DecidableEq, Repr

/-- The `add_numbers` task body from `src/app/worker.py` lines 27-31:
returns `x + y`. -/
def add_numbers (x y : ℚ) : ℚ := x + y

/-- The `max_retries=5` option configured on `divide_numbers`
(`src/app/worker.py` line 34). -/
def divideMaxRetries : ℕ := 5

/-- Outcome of a single attempt of a task under the retry scheduler:
return a value, re-enqueue with a backoff delay, or fail terminally. -/
inductive AttemptOutcome (α : Type)
  | ok (v : α)
  | retryAfter (countdown : ℕ)
  | failed (e : String)
deriving DecidableEq, Repr

/-- One attempt of the `divide_numbers` body from `src/app/worker.py`
lines 35-51, before the retry decision.  If `y == 0` it raises
`ZeroDivisionError("Cannot divide by zero")` and computes the backoff
`countdown = 2 ** self.request.retries` that it passes to `self.retry`;
otherwise it returns `x / y`.  `retries` is `self.request.retries`, the
number of retries already performed (0 on the first attempt). -/
def divide_numbers_body (retries : ℕ) (x y : ℚ) : Except (String × ℕ) ℚ :=
  if y = 0 then Except.error ("Cannot divide by zero", 2 ^ retries)
  else Except.ok (x / y)

/-- Modelled from the spec: the Retry Scheduler (spec section 4.4), which
lives in the Celery library (`Task.retry`) and not under `src/`.  On
handler failure with `retry_count < max_retries` it re-enqueues the same
envelope with the computed backoff delay (state RETRY); once
`retry_count >= max_retries` it writes terminal FAILURE with the captured
error and does not re-enqueue. -/
def retryDecision (maxRetries retries : ℕ) (r : Except (String × ℕ) ℚ) :
    AttemptOutcome ℚ :=
  match r with
  | Except.ok v => AttemptOutcome.ok v
  | Except.error (e, c) =>
    if retries < maxRetries then AttemptOutcome.retryAfter c
    else AttemptOutcome.failed e

/-- A full attempt of `divide_numbers`: the body from the source followed
by the scheduler's retry decision with its configured `max_retries = 5`. -/
def divide_numbers_attempt (retries : ℕ) (x y : ℚ) : AttemptOutcome ℚ :=
  retryDecision divideMaxRetries retries (divide_numbers_body retries x y)

/-- Modelled from the spec: the worker/retry execution loop (spec
sections 4.3-4.4), which lives in the Celery library and not under
`src/`.  Attempts the task repeatedly, collecting the backoff delay of
every re-enqueue, until the attempt returns a value or fails terminally.
`fuel` bounds the number of attempts; `retries` is the current retry
count. -/
def runRetryLoopAux (attempt : ℕ → AttemptOutcome ℚ) :
    ℕ → ℕ → List ℕ × StageResult ℚ
  | 0, _ => ([], StageResult.failure "out of fuel")
  | fuel + 1, retries =>
    match attempt retries with
    | AttemptOutcome.ok v => ([], StageResult.success v)
    | AttemptOutcome.failed e => ([], StageResult.failure e)
    | AttemptOutcome.retryAfter c =>
      let p := runRetryLoopAux attempt fuel (retries + 1)
      (c :: p.1, p.2)

/-- Runs `divide_numbers x y` to completion under the retry scheduler,
starting from retry count 0 with enough fuel for the maximal number of
attempts.  Returns the list of backoff delays of the re-enqueues and the
terminal outcome. -/
def runDivide (x y : ℚ) : List ℕ × StageResult ℚ :=
  runRetryLoopAux (fun r => divide_numbers_attempt r x y)
    (divideMaxRetries + 1) 0

/-- Claim C1: evaluating `divide_numbers` at `y = 0` under the retry
scheduler.  The scheduler does retry exactly 5 times and the 6th attempt
ends in terminal FAILURE, but the backoff delays are 1, 2, 4, 8, 16
seconds (`countdown = 2 ** retries` with `retries` starting at 0), not
the 2, 4, 8, 16, 32 stated by the claim and by the code's own comment. -/
theorem divide_by_zero_retry_trace :
    runDivide 1 0 =
      ([1, 2, 4, 8, 16], StageResult.failure "Cannot divide by zero") ∧
    (runDivide 1 0).1 ≠ [2, 4, 8, 16, 32] := by
  constructor <;> decide

/-- Modelled from the spec: the Composition Engine's chain semantics (spec
section 4.2), implemented by the Celery library and not under `src/`.  A
chain runs its stages in order; on a stage completing with SUCCESS the
next stage is enqueued with that result injected as its input, and on a
stage completing with FAILURE the chain stops with that failure. -/
def runChain {α : Type} : List (α → StageResult α) → α → StageResult α
  | [], v => StageResult.success v
  | s :: rest, v =>
    match s v with
    | StageResult.success w => runChain rest w
    | StageResult.failure e => StageResult.failure e

/-- Modelled from the spec: the number of stages of a chain that are ever
enqueued and executed (spec section 4.2: after a FAILURE no further stage
is scheduled). -/
def chainStagesRun {α : Type} : List (α → StageResult α) → α → ℕ
  | [], _ => 0
  | s :: rest, v =>
    match s v with
    | StageResult.success w => 1 + chainStagesRun rest w
    | StageResult.failure _ => 1

/-- Claim C2: if a stage of a chain completes with FAILURE then no later
stage is ever enqueued (the number of executed stages is the failing
stage's position) and the chain's externally visible result is exactly
that stage's error. -/
theorem chain_short_circuit {α : Type} (pre : List (α → StageResult α))
    (s : α → StageResult α) (post : List (α → StageResult α))
    (v w : α) (e : String)
    (hpre : runChain pre v = StageResult.success w)
    (hs : s w = StageResult.failure e) :
    runChain (pre ++ s :: post) v = StageResult.failure e ∧
    chainStagesRun (pre ++ s :: post) v = pre.length + 1 := by
  induction pre generalizing v with
  | nil =>
    simp [runChain] at hpre
    subst hpre
    exact ⟨by simp [runChain, hs], by simp [chainStagesRun, hs]⟩
  | cons p pre ih =>
    cases hp : p v with
    | success u =>
      have hpre' : runChain pre u = StageResult.success w := by
        simpa [runChain, hp] using hpre
      have hrec := ih u hpre'
      refine ⟨by simp [runChain, hp, hrec.1], ?_⟩
      simp [chainStagesRun, hp, hrec.2]
      omega
    | failure e' => simp [runChain, hp] at hpre

/-- Witness for C2: the concrete 3-stage chain over ℚ whose middle stage
fails; stage 3 is never run and the chain reports stage 2's error. -/
theorem chain_short_circuit_witness :
    runChain [fun v => StageResult.success (v + 1),
              fun _ => StageResult.failure "stage two failed",
              fun v => StageResult.success (v * 2)] (0 : ℚ) =
      StageResult.failure "stage two failed" ∧
    chainStagesRun [fun v => StageResult.success (v + 1),
                    fun _ => StageResult.failure "stage two failed",
                    fun v => StageResult.success (v * 2)] (0 : ℚ) = 2 :=
  chain_short_circuit [fun v => StageResult.success (v + 1)]
    (fun _ => StageResult.failure "stage two failed")
    [fun v => StageResult.success (v * 2)] 0 1 "stage two failed"
    (by simp [runChain]) rfl

/-- Helper: `divide_numbers` with a non-zero divisor succeeds on the first
attempt with `x / y` and performs no retries. -/
theorem runDivide_ne_zero (x y : ℚ) (hy : y ≠ 0) :
    runDivide x y = ([], StageResult.success (x / y)) := by
  simp [runDivide, runRetryLoopAux, divide_numbers_attempt,
    divide_numbers_body, retryDecision, hy]

/-- Helper: `divide_numbers` with divisor 0 is retried 5 times with
backoff delays 1, 2, 4, 8, 16 and then fails terminally, whatever the
dividend. -/
theorem runDivide_zero (x : ℚ) :
    runDivide x 0 =
      ([1, 2, 4, 8, 16], StageResult.failure "Cannot divide by zero") := by
  simp [runDivide, runRetryLoopAux, divide_numbers_attempt,
    divide_numbers_body, retryDecision, divideMaxRetries]

/-- The chain built by the `/calculate-chain/{x}/{y}/{z}` endpoint
(`src/app/main.py` lines 42-54): `chain(add_numbers.s(x, y),
divide_numbers.s(z))`.  Stage 1 runs `add_numbers x y`; stage 2 receives
stage 1's result as its leading argument and runs `divide_numbers` under
the retry scheduler, so it computes `(x + y) / z`. -/
def calculate_chain (x y z : ℚ) : StageResult ℚ :=
  runChain [fun _ => StageResult.success (add_numbers x y),
            fun v => (runDivide v z).2] 0

/-- Claim C5: the chain add(2,3) then divide(z) yields 1 for z = 5
(divide receives add's result 5 as leading argument, 5 / 5 = 1), and for
z = 0 it ends in FAILURE after the divide stage was retried 5 times. -/
theorem calculate_chain_example :
    calculate_chain 2 3 5 = StageResult.success 1 ∧
    calculate_chain 2 3 0 = StageResult.failure "Cannot divide by zero" ∧
    (runDivide (add_numbers 2 3) 0).1.length = 5 := by
  refine ⟨?_, ?_, ?_⟩
  · have h : runDivide 5 5 = ([], StageResult.success 1) := by
      rw [runDivide_ne_zero 5 5 (by norm_num)]
      norm_num
    norm_num [calculate_chain, runChain, add_numbers, h]
  · simp [calculate_chain, runChain, runDivide_zero]
  · simp [runDivide_zero]

/-- Modelled from the spec: the Group Ledger and chord fan-in state (spec
sections 3 and 4.2), kept in the Result Store by the Celery library and
not under `src/`.  `results` records, per sibling position in
group-definition order, the sibling's terminal result if it has one;
`fireCount` counts how many times the callback has been enqueued;
`callbackInput` is the input list the callback was enqueued with. -/
structure ChordState (α : Type) (n : ℕ) where
  results : Fin n → Option α
  fireCount : ℕ
  callbackInput : Option (List α)

/-- Modelled from the spec: the initial Group Ledger entry created when a
chord's header group is scheduled: no sibling terminal yet, callback not
fired. -/
def initChord (α : Type) (n : ℕ) : ChordState α n :=
  ⟨fun _ => none, 0, none⟩

/-- Modelled from the spec: a worker completing sibling `i` of a chord
(spec sections 4.2 and 5).  It records the sibling's result in the
ledger and atomically checks whether it was the last outstanding
sibling; exactly the worker whose write fills the last slot enqueues the
callback, with the sibling results collected in group-definition order. -/
def completeSibling {α : Type} {n : ℕ} (values : Fin n → α)
    (st : ChordState α n) (i : Fin n) : ChordState α n :=
  if (¬ ∀ j, (st.results j).isSome) ∧
      (∀ j, (Function.update st.results i (some (values i)) j).isSome) then
    { results := Function.update st.results i (some (values i)),
      fireCount := st.fireCount + 1,
      callbackInput :=
        some ((List.finRange n).filterMap
          (Function.update st.results i (some (values i)))) }
  else
    { results := Function.update st.results i (some (values i)),
      fireCount := st.fireCount,
      callbackInput := st.callbackInput }

/-- Modelled from the spec: running a chord whose siblings terminate in
the order given by `order`, each sibling `i` terminating with result
`values i`. -/
def runChord {α : Type} {n : ℕ} (values : Fin n → α)
    (order : List (Fin n)) : ChordState α n :=
  order.foldl (completeSibling values) (initChord α n)

/-- Helper: the ledger state after exactly the siblings in `done` have
terminated. -/
def stateOf {α : Type} {n : ℕ} (values : Fin n → α)
    (done : Finset (Fin n)) : ChordState α n :=
  ⟨fun j => if j ∈ done then some (values j) else none,
   if done = Finset.univ then 1 else 0,
   if done = Finset.univ then some ((List.finRange n).map values) else none⟩

/-- Helper: filtering with an everywhere-`some` function is a map. -/
theorem filterMap_all_some {α β : Type} (f : α → β) (l : List α) :
    l.filterMap (fun a => some (f a)) = l.map f := by
  induction l with
  | nil => rfl
  | cons a l ih => simp [List.filterMap_cons, ih]

/-- Helper: completing a sibling not yet terminal moves the ledger from
`stateOf done` to `stateOf (insert i done)`, firing the callback exactly
when `i` was the last outstanding sibling. -/
theorem completeSibling_step {α : Type} {n : ℕ} (values : Fin n → α)
    (done : Finset (Fin n)) (i : Fin n) (hi : i ∉ done) :
    completeSibling values (stateOf values done) i =
      stateOf values (insert i done) := by
  have hdne : done ≠ Finset.univ := fun h => hi (h ▸ Finset.mem_univ i)
  have hr : Function.update (stateOf values done).results i (some (values i))
      = fun j => if j ∈ insert i done then some (values j) else none := by
    funext j
    by_cases hj : j = i
    · subst hj
      simp [stateOf]
    · simp [Function.update_apply, hj, stateOf, Finset.mem_insert]
  by_cases hcase : insert i done = Finset.univ
  · have hcond : (¬ ∀ j, ((stateOf values done).results j).isSome) ∧
        (∀ j, (Function.update (stateOf values done).results i
          (some (values i)) j).isSome) := by
      constructor
      · intro hAll
        have hx := hAll i
        simp [stateOf, hi] at hx
      · intro j
        rw [hr]
        have hj : j ∈ insert i done := hcase ▸ Finset.mem_univ j
        simp [hj]
    rw [completeSibling, if_pos hcond, hr]
    simp [stateOf, hdne, hcase, filterMap_all_some]
  · have hcond : ¬ ((¬ ∀ j, ((stateOf values done).results j).isSome) ∧
        (∀ j, (Function.update (stateOf values done).results i
          (some (values i)) j).isSome)) := by
      intro hc
      obtain ⟨j, hj⟩ := Finset.not_subset.mp
        (fun hsub => hcase (Finset.eq_univ_of_forall fun a => hsub (Finset.mem_univ a)))
      have hx := hc.2 j
      rw [hr] at hx
      simp [hj.2] at hx
    rw [completeSibling, if_neg hcond, hr]
    simp [stateOf, hdne, hcase]

/-- Helper: folding the remaining terminations over a consistent ledger
state reaches the fully-terminated state. -/
theorem chordLoop {α : Type} {n : ℕ} (values : Fin n → α) :
    ∀ (rest : List (Fin n)) (done : Finset (Fin n)), rest.Nodup →
      (∀ i, i ∈ rest ↔ i ∉ done) →
      rest.foldl (completeSibling values) (stateOf values done) =
        stateOf values Finset.univ := by
  intro rest
  induction rest with
  | nil =>
    intro done _ hmem
    have : done = Finset.univ := by
      apply Finset.eq_univ_of_forall
      intro a
      by_contra ha
      exact (List.not_mem_nil a) ((hmem a).mpr ha)
    rw [this]
    rfl
  | cons i rest ih =>
    intro done hnd hmem
    have hi : i ∉ done := (hmem i).mp (List.mem_cons_self i rest)
    have hinotr : i ∉ rest := (List.nodup_cons.mp hnd).1
    rw [List.foldl_cons, completeSibling_step values done i hi]
    apply ih (insert i done) (List.nodup_cons.mp hnd).2
    intro j
    constructor
    · intro hj
      have hjne : j ≠ i := fun h => hinotr (h ▸ hj)
      have hjd : j ∉ done := (hmem j).mp (List.mem_cons_of_mem i hj)
      simp [Finset.mem_insert, hjne, hjd]
    · intro hj
      rw [Finset.mem_insert, not_or] at hj
      rcases List.mem_cons.mp ((hmem j).mpr hj.2) with h | h
      · exact absurd h hj.1
      · exact h

/-- Claim C3: for a chord over a group of N siblings, whatever the order
in which the siblings complete (any permutation of the N positions), the
callback is enqueued exactly once, and its input is the length-N list of
the sibling results in group-definition order. -/
theorem chord_fan_in {α : Type} (n : ℕ) (hn : 0 < n) (values : Fin n → α)
    (order : List (Fin n)) (hnd : order.Nodup) (hall : ∀ i, i ∈ order) :
    (runChord values order).fireCount = 1 ∧
    (runChord values order).callbackInput =
      some ((List.finRange n).map values) ∧
    ((List.finRange n).map values).length = n := by
  have hne : (∅ : Finset (Fin n)) ≠ Finset.univ := by
    intro h
    have hx := Finset.mem_univ (⟨0, hn⟩ : Fin n)
    rw [← h] at hx
    simp at hx
  have hinit : initChord α n = stateOf values ∅ := by
    simp [initChord, stateOf, hne]
  have h := chordLoop values order ∅ hnd (by simp [hall])
  rw [runChord, hinit, h]
  simp [stateOf]

/-- Witness for C3: a 2-sibling chord completing in reverse order still
fires the callback once with the results in group-definition order. -/
theorem chord_fan_in_witness :
    (runChord (![10, 20] : Fin 2 → ℚ) [1, 0]).fireCount = 1 ∧
    (runChord (![10, 20] : Fin 2 → ℚ) [1, 0]).callbackInput =
      some ((List.finRange 2).map (![10, 20] : Fin 2 → ℚ)) ∧
    ((List.finRange 2).map (![10, 20] : Fin 2 → ℚ)).length = 2 :=
  chord_fan_in 2 (by decide) ![10, 20] [1, 0] (by decide) (by decide)

/-- A value occupying a position of a chord callback's input list: either
a sibling's returned number or, for a failed sibling (under the spec's
section 4.2 policy), that sibling's captured error at its position. -/
inductive SiblingOutcome
  | value (v : ℚ)
  | error (e : String)
deriving DecidableEq, Repr

/-- The `aggregate_results` task body from `src/app/worker.py` lines
53-60: `return sum(results)`.  Python's `sum` starts from 0 and adds the
elements left to right, raising `TypeError` as soon as it reaches a
non-numeric element, so an error sentinel at any position makes the task
body raise instead of aggregating. -/
def aggregate_results (results : List SiblingOutcome) : Except String ℚ :=
  results.foldlM
    (fun acc r =>
      match r with
      | SiblingOutcome.value v => Except.ok (acc + v)
      | SiblingOutcome.error _ =>
        Except.error "TypeError: unsupported operand type(s) for +") 0

/-- Claim C4: evaluating the chord of `/calculate-chord/` at x = 1,
y = 4, z = 0.  The divide sibling fails terminally; under the spec's
stated policy the ledger delivers the callback input with that error in
place (nothing dropped: the input still has both positions), but the
aggregator body `sum(results)` from the source then raises `TypeError`
on the non-numeric error sentinel instead of handling the mixed list. -/
theorem aggregate_results_mixed_input :
    (runDivide 1 0).2 = StageResult.failure "Cannot divide by zero" ∧
    (runChord (![SiblingOutcome.value 5,
        SiblingOutcome.error "Cannot divide by zero"] : Fin 2 → SiblingOutcome)
        [0, 1]).callbackInput =
      some [SiblingOutcome.value 5,
        SiblingOutcome.error "Cannot divide by zero"] ∧
    aggregate_results
        [SiblingOutcome.value 5,
         SiblingOutcome.error "Cannot divide by zero"] =
      Except.error "TypeError: unsupported operand type(s) for +" := by
  refine ⟨by simp [runDivide_zero], by decide, rfl⟩

/-- Modelled from the spec: the Task Registry (spec section 4.1), part of
the Celery library and not under `src/`: `resolve(kind)` yields the
registered pure handler, or nothing (`UnknownTaskKind`) if absent. -/
def Registry (α β : Type) : Type :=
  String → Option (α → β)

/-- Modelled from the spec: the engine's shared state (spec sections
2-3): the broker queue of pending envelopes (task id, kind, args) and
the Result Store from task id to terminal outcome. -/
structure EngineState (α β : Type) where
  queue : List (ℕ × String × α)
  store : ℕ → Option (StageResult β)
  nextId : ℕ

/-- Modelled from the spec: `submit(kind, args, queue)` (spec section 6):
assign a fresh task id, append the envelope to the broker queue, return
the id. -/
def submit {α β : Type} (st : EngineState α β) (kind : String) (args : α) :
    ℕ × EngineState α β :=
  (st.nextId, ⟨st.queue ++ [(st.nextId, kind, args)], st.store, st.nextId + 1⟩)

/-- Modelled from the spec: one worker dispatch step (spec section 4.3):
dequeue the head envelope, resolve its kind in the registry, invoke the
handler on the envelope's args unchanged and write the returned value
unchanged to the Result Store; a registry miss writes a failure. -/
def workerStep {α β : Type} (reg : Registry α β) (st : EngineState α β) :
    EngineState α β :=
  match st.queue with
  | [] => st
  | (id, kind, args) :: rest =>
    match reg kind with
    | some h =>
      ⟨rest,
       fun j => if j = id then some (StageResult.success (h args)) else st.store j,
       st.nextId⟩
    | none =>
      ⟨rest,
       fun j => if j = id then some (StageResult.failure "UnknownTaskKind")
         else st.store j,
       st.nextId⟩

/-- Modelled from the spec: `await_result(task_id)` (spec section 6)
reads the task's record from the Result Store. -/
def await_result {α β : Type} (st : EngineState α β) (id : ℕ) :
    Option (StageResult β) :=
  st.store id

/-- Claim C6: for a registered `(kind, args)` pair, submitting through
the engine and awaiting the result yields exactly the handler applied
directly to the arguments: the dispatch layer applies no transformation
to inputs or outputs. -/
theorem submit_await_refines_handler {α β : Type} (reg : Registry α β)
    (st : EngineState α β) (kind : String) (h : α → β) (args : α)
    (hreg : reg kind = some h) (hq : st.queue = []) :
    await_result (workerStep reg (submit st kind args).2)
        (submit st kind args).1 =
      some (StageResult.success (h args)) := by
  simp [submit, workerStep, hq, hreg, await_result]

/-- The registry of the arithmetic worker, mapping the kind used by the
`/add/{x}/{y}` endpoint to the `add_numbers` handler. -/
def demoRegistry : Registry (ℚ × ℚ) ℚ :=
  fun kind => if kind = "add_numbers" then some (fun p => add_numbers p.1 p.2)
    else none

/-- An engine state with an empty queue and an empty result store. -/
def emptyEngine (α β : Type) : EngineState α β :=
  ⟨[], fun _ => none, 0⟩

/-- Witness for C6: submitting add_numbers(2, 3) and awaiting it returns
exactly `add_numbers 2 3`. -/
theorem submit_await_refines_handler_witness :
    await_result
        (workerStep demoRegistry
          (submit (emptyEngine (ℚ × ℚ) ℚ) "add_numbers" (2, 3)).2)
        (submit (emptyEngine (ℚ × ℚ) ℚ) "add_numbers" (2, 3)).1 =
      some (StageResult.success (add_numbers 2 3)) :=
  submit_await_refines_handler demoRegistry (emptyEngine (ℚ × ℚ) ℚ)
    "add_numbers" (fun p => add_numbers p.1 p.2) (2, 3)
    (by simp [demoRegistry]) rfl

/-- The record the Result Store holds for a task, as observed through
Celery's AsyncResult: its state, with the value when it succeeded or the
captured error when it failed. -/
inductive TaskOutcome (α : Type)
  | pending
  | running
  | retry
  | success (v : α)
  | failed (e : String)
deriving DecidableEq, Repr

/-- Modelled from the spec: looking up a task id in the Result Store
(spec section 3: a record is lazily absent = PENDING, so AsyncResult on
an id the store has never observed reports the PENDING state). -/
def storedOutcome {α : Type} (store : String → Option (TaskOutcome α))
    (id : String) : TaskOutcome α :=
  (store id).getD TaskOutcome.pending

/-- Response dictionary returned by the status query functions. -/
structure StatusResponse (α : Type) where
  task_id : String
  status : String
  result : Option α
  error : Option String
deriving DecidableEq, Repr

/-- `get_task_status` from `src/app/main.py` lines 21-28.  When the task
is ready (SUCCESS or FAILURE) it returns a Completed response carrying
`task_result.get()`; for a FAILURE, `get()` re-raises the captured
error, which escapes the endpoint (modelled as `Except.error`).
Otherwise it returns a Pending response. -/
def get_task_status {α : Type} (store : String → Option (TaskOutcome α))
    (task_id : String) : Except String (StatusResponse α) :=
  match storedOutcome store task_id with
  | TaskOutcome.success v => Except.ok ⟨task_id, "Completed", some v, none⟩
  | TaskOutcome.failed e => Except.error e
  | _ => Except.ok ⟨task_id, "Pending", none, none⟩

/-- `check_task_status` from `src/app/rag/rag_utilities.py` lines
169-205.  An empty `task_id` is falsy in Python, so the guard returns an
Error dictionary; a ready task reports Completed (with its value) or
Error (with the stringified error); the PENDING state reports Pending,
RETRY (or PROGRESS) reports Running, any other non-ready state reports
Pending.  The body is wrapped in try/except, so it always returns a
dictionary and never raises. -/
def check_task_status {α : Type} (store : String → Option (TaskOutcome α))
    (task_id : String) : StatusResponse α :=
  if task_id = "" then ⟨task_id, "Error", none, some "No task ID provided"⟩
  else
    match storedOutcome store task_id with
    | TaskOutcome.success v => ⟨task_id, "Completed", some v, none⟩
    | TaskOutcome.failed e => ⟨task_id, "Error", none, some e⟩
    | TaskOutcome.pending => ⟨task_id, "Pending", none, none⟩
    | TaskOutcome.retry => ⟨task_id, "Running", none, none⟩
    | TaskOutcome.running => ⟨task_id, "Pending", none, none⟩

/-- Claim C7 counterexample: `get_task_status` on a task whose state is
FAILURE calls `task_result.get()` on a ready task and thereby re-raises
the captured error instead of returning a status response, so the status
query is not exception-free for every task id. -/
theorem get_task_status_raises_on_failure :
    get_task_status
        (fun id => if id = "t1"
          then some (TaskOutcome.failed (α := ℚ)
            "ZeroDivisionError: Cannot divide by zero")
          else none) "t1" =
      Except.error "ZeroDivisionError: Cannot divide by zero" := rfl

/-- Claim C7 amended: a task id the store has never observed yields a
Pending response from `get_task_status` and, when the id is non-empty,
from `check_task_status` (the empty id yields check_task_status's Error
dictionary, returned rather than raised); however `get_task_status`
re-raises the captured error of a task in FAILURE state. -/
theorem status_query_unknown_pending {α : Type}
    (store : String → Option (TaskOutcome α)) (id : String) :
    (store id = none →
      get_task_status store id = Except.ok ⟨id, "Pending", none, none⟩) ∧
    (store id = none → id ≠ "" →
      check_task_status store id = ⟨id, "Pending", none, none⟩) ∧
    check_task_status store "" =
      ⟨"", "Error", none, some "No task ID provided"⟩ ∧
    (∀ e, store id = some (TaskOutcome.failed e) →
      get_task_status store id = Except.error e) := by
  refine ⟨?_, ?_, ?_, ?_⟩
  · intro h
    simp [get_task_status, storedOutcome, h]
  · intro h hne
    simp [check_task_status, storedOutcome, h, hne]
  · simp [check_task_status]
  · intro e h
    simp [get_task_status, storedOutcome, h]

/-- Witness for the amended C7: on an empty store, both status queries
report Pending for the unknown id "t1". -/
theorem status_query_unknown_pending_witness :
    get_task_status (α := ℚ) (fun _ => none) "t1" =
      Except.ok ⟨"t1", "Pending", none, none⟩ ∧
    check_task_status (α := ℚ) (fun _ => none) "t1" =
      ⟨"t1", "Pending", none, none⟩ :=
  ⟨(status_query_unknown_pending (fun _ => none) "t1").1 rfl,
   (status_query_unknown_pending (fun _ => none) "t1").2.1 rfl (by decide)⟩

/-- Claim C8: for `divide_numbers` the number of re-enqueues never
exceeds the configured `max_retries = 5`, and once the retry count has
reached `max_retries` a failing attempt is written as terminal FAILURE
carrying the captured error instead of being re-enqueued. -/
theorem retry_count_bounded (x y : ℚ) :
    (runDivide x y).1.length ≤ divideMaxRetries ∧
    (∀ r, divideMaxRetries ≤ r →
      divide_numbers_attempt r x 0 =
        AttemptOutcome.failed "Cannot divide by zero") := by
  constructor
  · have key : ∀ fuel retries,
        (runRetryLoopAux (fun r => divide_numbers_attempt r x y)
          fuel retries).1.length ≤ divideMaxRetries - retries := by
      intro fuel
      induction fuel with
      | zero =>
        intro r
        simp [runRetryLoopAux]
      | succ fuel ih =>
        intro r
        cases hA : divide_numbers_attempt r x y with
        | ok v => simp [runRetryLoopAux, hA]
        | failed e => simp [runRetryLoopAux, hA]
        | retryAfter c =>
          have hlt : r < divideMaxRetries := by
            by_contra hge
            by_cases hy : y = 0 <;>
              simp [divide_numbers_attempt, divide_numbers_body,
                retryDecision, hy, hge] at hA
          have h2 := ih (r + 1)
          simp [runRetryLoopAux, hA]
          omega
    simpa using key (divideMaxRetries + 1) 0
  · intro r hr
    simp [divide_numbers_attempt, divide_numbers_body, retryDecision,
      Nat.not_lt.mpr hr]

/-- Witness for C8: at x = 1, y = 0 the run performs at most 5
re-enqueues, and at retry count 5 the failing attempt is terminal. -/
theorem retry_count_bounded_witness :
    (runDivide 1 0).1.length ≤ divideMaxRetries ∧
    divide_numbers_attempt 5 1 0 =
      AttemptOutcome.failed "Cannot divide by zero" :=
  ⟨(retry_count_bounded 1 0).1, (retry_count_bounded 1 0).2 5 (by decide)⟩

/-- A serialized document: page content plus metadata key-value pairs,
the dictionary shape built by the RAG tasks. -/
structure Doc where
  page_content : String
  metadata : List (String × String)
deriving DecidableEq, Repr

/-- Return dictionary of `pdf_reader_task`. -/
structure PdfResult where
  status : String
  message : String
  documents : List Doc
  doc_count : ℕ
deriving DecidableEq, Repr

/-- `pdf_reader_task` from `src/app/rag/rag_worker.py` lines 19-54.  The
PDF loading itself (PyPDFLoader) is an external library call, passed in
here as the oracle `loadPdf`.  The body wraps everything in try/except
and returns a success dictionary with the serialized documents, or, on
any exception, an error dictionary with empty documents and count 0. -/
def pdf_reader_task (loadPdf : String → Except String (List Doc))
    (pdf_path : String) : PdfResult :=
  match loadPdf pdf_path with
  | Except.ok docs =>
    ⟨"success",
     "Successfully loaded " ++ toString docs.length ++ " pages from " ++ pdf_path,
     docs, docs.length⟩
  | Except.error e => ⟨"error", "Error loading PDF: " ++ e, [], 0⟩

/-- Return dictionary of `transform_documents_task`. -/
structure TransformResult where
  status : String
  message : String
  chunks : List Doc
  chunk_count : ℕ
deriving DecidableEq, Repr

/-- `transform_documents_task` from `src/app/rag/rag_worker.py` lines
56-101.  The text splitting (RecursiveCharacterTextSplitter) is an
external library call, passed in as the oracle `split`.  The body wraps
everything in try/except and returns a success dictionary with the
serialized chunks, or an error dictionary with empty chunks and
count 0. -/
def transform_documents_task
    (split : List Doc → ℕ → ℕ → Except String (List Doc))
    (documents : List Doc) (chunk_size chunk_overlap : ℕ) : TransformResult :=
  match split documents chunk_size chunk_overlap with
  | Except.ok chunks =>
    ⟨"success", "Successfully created " ++ toString chunks.length ++ " chunks",
     chunks, chunks.length⟩
  | Except.error e => ⟨"error", "Error transforming documents: " ++ e, [], 0⟩

/-- Return dictionary of `create_vectorstore_task`. -/
structure VectorstoreResult where
  status : String
  message : String
  vectorstore_path : Option String
  chunk_count : ℕ
  embedding_model : Option String
  collection_name : Option String
  collection_id : Option String
deriving DecidableEq, Repr

/-- `create_vectorstore_task` from `src/app/rag/rag_worker.py` lines
103-150.  Embedding and Chroma construction are external library calls,
passed in as the oracle `buildStore`, which yields the collection's name
and id on success.  The body wraps everything in try/except and returns
a success dictionary, or an error dictionary with no path and chunk
count 0. -/
def create_vectorstore_task
    (buildStore : List Doc → String → Except String (String × String))
    (chunks : List Doc) (persist_directory : String) : VectorstoreResult :=
  match buildStore chunks persist_directory with
  | Except.ok nameId =>
    ⟨"success",
     "Successfully created vectorstore with " ++ toString chunks.length ++ " chunks",
     some persist_directory, chunks.length, some "OpenAI",
     some nameId.1, some nameId.2⟩
  | Except.error e =>
    ⟨"error", "Error creating vectorstore: " ++ e, none, 0, none, none, none⟩

/-- Return dictionary of `query_vectorstore_task`. -/
structure QueryResult where
  status : String
  message : Option String
  answer : Option String
  retrieved_chunks : List Doc
  sources : List String
  question : Option String
  context_used : Option ℕ
deriving DecidableEq, Repr

/-- The source-collection loop of `query_vectorstore_task` (lines
264-277): each retrieved document contributes
`metadata.get("source", "Unknown")`, appended once, first-seen order
preserved. -/
def collectSources (docs : List Doc) : List String :=
  docs.foldl
    (fun acc d =>
      if (d.metadata.lookup "source").getD "Unknown" ∈ acc then acc
      else acc ++ [(d.metadata.lookup "source").getD "Unknown"]) []

/-- `query_vectorstore_task` from `src/app/rag/rag_worker.py` lines
170-298.  The vectorstore load and count, the retriever, and the LCEL
LLM chain are external library calls, passed in as the oracles
`storeCount`, `retrieve` and `invokeLlm`.  The three in-body error
returns are the empty vectorstore, the empty retrieval, and the
final except-clause for any raised exception. -/
def query_vectorstore_task (storeCount : String → Except String ℕ)
    (retrieve : String → ℕ → Except String (List Doc))
    (invokeLlm : String → List Doc → Except String String)
    (question persist_directory : String) (top_k : ℕ) : QueryResult :=
  match storeCount persist_directory with
  | Except.error e =>
    ⟨"error", some ("Error querying vectorstore: " ++ e), none, [], [],
     none, none⟩
  | Except.ok cnt =>
    if cnt = 0 then
      ⟨"error",
       some ("Vectorstore at " ++ persist_directory ++
         " is empty. Run /rag-individual-tasks/ first to populate it."),
       none, [], [], none, none⟩
    else
      match retrieve question top_k with
      | Except.error e =>
        ⟨"error", some ("Error querying vectorstore: " ++ e), none, [], [],
         none, none⟩
      | Except.ok docs =>
        if docs.isEmpty then
          ⟨"error",
           some ("No relevant documents found for question: " ++ question),
           some "I don't know - no relevant context was retrieved.", [], [],
           none, none⟩
        else
          match invokeLlm question docs with
          | Except.error e =>
            ⟨"error", some ("Error querying vectorstore: " ++ e), none, [], [],
             none, none⟩
          | Except.ok answer =>
            ⟨"success", none, some answer, docs, collectSources docs,
             some question, some docs.length⟩

/-- Claim C9: each RAG task body is total at the task boundary: for all
oracle behaviours and inputs it returns a dictionary whose status is
"success" or "error", on the error branch its payload fields are empty
and its count fields 0, and because the handler returns normally the
engine records the outcome as SUCCESS (last conjunct: dispatching
`pdf_reader_task` through the engine writes a SUCCESS record even when
the loader raised). -/
theorem rag_tasks_total
    (loadPdf : String → Except String (List Doc))
    (split : List Doc → ℕ → ℕ → Except String (List Doc))
    (buildStore : List Doc → String → Except String (String × String))
    (storeCount : String → Except String ℕ)
    (retrieve : String → ℕ → Except String (List Doc))
    (invokeLlm : String → List Doc → Except String String)
    (pdf_path : String) (documents chunks : List Doc)
    (chunk_size chunk_overlap : ℕ) (question persist_directory : String)
    (top_k : ℕ) (reg : Registry String PdfResult)
    (hreg : reg "pdf_reader_task" = some (pdf_reader_task loadPdf)) :
    (((pdf_reader_task loadPdf pdf_path).status = "success" ∨
      (pdf_reader_task loadPdf pdf_path).status = "error") ∧
     ((pdf_reader_task loadPdf pdf_path).status = "error" →
      (pdf_reader_task loadPdf pdf_path).documents = [] ∧
      (pdf_reader_task loadPdf pdf_path).doc_count = 0)) ∧
    (((transform_documents_task split documents chunk_size chunk_overlap).status
        = "success" ∨
      (transform_documents_task split documents chunk_size chunk_overlap).status
        = "error") ∧
     ((transform_documents_task split documents chunk_size chunk_overlap).status
        = "error" →
      (transform_documents_task split documents chunk_size chunk_overlap).chunks
        = [] ∧
      (transform_documents_task split documents chunk_size
        chunk_overlap).chunk_count = 0)) ∧
    (((create_vectorstore_task buildStore chunks persist_directory).status
        = "success" ∨
      (create_vectorstore_task buildStore chunks persist_directory).status
        = "error") ∧
     ((create_vectorstore_task buildStore chunks persist_directory).status
        = "error" →
      (create_vectorstore_task buildStore chunks
        persist_directory).vectorstore_path = none ∧
      (create_vectorstore_task buildStore chunks
        persist_directory).chunk_count = 0)) ∧
    (((query_vectorstore_task storeCount retrieve invokeLlm question
        persist_directory top_k).status = "success" ∨
      (query_vectorstore_task storeCount retrieve invokeLlm question
        persist_directory top_k).status = "error") ∧
     ((query_vectorstore_task storeCount retrieve invokeLlm question
        persist_directory top_k).status = "error" →
      (query_vectorstore_task storeCount retrieve invokeLlm question
        persist_directory top_k).retrieved_chunks = [] ∧
      (query_vectorstore_task storeCount retrieve invokeLlm question
        persist_directory top_k).sources = [])) ∧
    await_result
        (workerStep reg (submit (emptyEngine String PdfResult)
          "pdf_reader_task" pdf_path).2)
        (submit (emptyEngine String PdfResult) "pdf_reader_task" pdf_path).1 =
      some (StageResult.success (pdf_reader_task loadPdf pdf_path)) := by
  refine ⟨?_, ?_, ?_, ?_, ?_⟩
  · cases h : loadPdf pdf_path <;> simp [pdf_reader_task, h]
  · cases h : split documents chunk_size chunk_overlap <;>
      simp [transform_documents_task, h]
  · cases h : buildStore chunks persist_directory <;>
      simp [create_vectorstore_task, h]
  · cases h1 : storeCount persist_directory with
    | error e => simp [query_vectorstore_task, h1]
    | ok cnt =>
      by_cases h2 : cnt = 0
      · simp [query_vectorstore_task, h1, h2]
      · cases h3 : retrieve question top_k with
        | error e => simp [query_vectorstore_task, h1, h2, h3]
        | ok docs =>
          by_cases h4 : docs.isEmpty
          · simp [query_vectorstore_task, h1, h2, h3, h4]
          · cases h5 : invokeLlm question docs with
            | error e => simp [query_vectorstore_task, h1, h2, h3, h4, h5]
            | ok answer => simp [query_vectorstore_task, h1, h2, h3, h4, h5]
  · simp [submit, workerStep, emptyEngine, hreg, await_result]

/-- Witness for C9: with oracles that raise, every task returns its error
dictionary with empty payload and zero counts. -/
theorem rag_tasks_total_witness :
    ((pdf_reader_task (fun _ => Except.error "boom") "f.pdf").documents = [] ∧
     (pdf_reader_task (fun _ => Except.error "boom") "f.pdf").doc_count = 0) ∧
    ((transform_documents_task (fun _ _ _ => Except.error "boom")
        [] 1000 200).chunks = [] ∧
     (transform_documents_task (fun _ _ _ => Except.error "boom")
        [] 1000 200).chunk_count = 0) ∧
    ((create_vectorstore_task (fun _ _ => Except.error "boom")
        [] "./db").vectorstore_path = none ∧
     (create_vectorstore_task (fun _ _ => Except.error "boom")
        [] "./db").chunk_count = 0) ∧
    ((query_vectorstore_task (fun _ => Except.error "down")
        (fun _ _ => Except.ok []) (fun _ _ => Except.ok "a")
        "q" "./db" 3).retrieved_chunks = [] ∧
     (query_vectorstore_task (fun _ => Except.error "down")
        (fun _ _ => Except.ok []) (fun _ _ => Except.ok "a")
        "q" "./db" 3).sources = []) := by
  have h := rag_tasks_total (fun _ => Except.error "boom")
    (fun _ _ _ => Except.error "boom") (fun _ _ => Except.error "boom")
    (fun _ => Except.error "down") (fun _ _ => Except.ok [])
    (fun _ _ => Except.ok "a") "f.pdf" [] [] 1000 200 "q" "./db" 3
    (fun k => if k = "pdf_reader_task"
      then some (pdf_reader_task (fun _ => Except.error "boom")) else none)
    rfl
  exact ⟨h.1.2 rfl, h.2.1.2 rfl, h.2.2.1.2 rfl, h.2.2.2.1.2 rfl⟩

/-- `extract_documents_for_chain` from `src/app/rag/rag_worker.py` lines
152-159: raises `Exception(pdf_result["message"])` exactly when the pdf
result's status is "error", otherwise returns `pdf_result["documents"]`
unchanged. -/
def extract_documents_for_chain (pdf_result : PdfResult) :
    Except String (List Doc) :=
  if pdf_result.status = "error" then Except.error pdf_result.message
  else Except.ok pdf_result.documents

/-- `extract_chunks_for_chain` from `src/app/rag/rag_worker.py` lines
161-168: raises `Exception(transform_result["message"])` exactly when
the transform result's status is "error", otherwise returns
`transform_result["chunks"]` unchanged. -/
def extract_chunks_for_chain (transform_result : TransformResult) :
    Except String (List Doc) :=
  if transform_result.status = "error" then
    Except.error transform_result.message
  else Except.ok transform_result.chunks

/-- Claim C10: each chain extractor raises if and only if its input
dictionary has status "error", the raised exception carries exactly the
input's message, and on any other status the payload (documents
respectively chunks) is returned unchanged. -/
theorem extractors_spec (p : PdfResult) (t : TransformResult) :
    ((∃ e, extract_documents_for_chain p = Except.error e) ↔
      p.status = "error") ∧
    (p.status = "error" →
      extract_documents_for_chain p = Except.error p.message) ∧
    (p.status ≠ "error" →
      extract_documents_for_chain p = Except.ok p.documents) ∧
    ((∃ e, extract_chunks_for_chain t = Except.error e) ↔
      t.status = "error") ∧
    (t.status = "error" →
      extract_chunks_for_chain t = Except.error t.message) ∧
    (t.status ≠ "error" →
      extract_chunks_for_chain t = Except.ok t.chunks) := by
  by_cases hp : p.status = "error" <;> by_cases ht : t.status = "error" <;>
    simp [extract_documents_for_chain, extract_chunks_for_chain, hp, ht]

/-- Witness for C10: an error pdf result makes the extractor raise with
the result's message; a success transform result passes its chunks
through unchanged. -/
theorem extractors_spec_witness :
    extract_documents_for_chain ⟨"error", "Error loading PDF: boom", [], 0⟩ =
      Except.error "Error loading PDF: boom" ∧
    extract_chunks_for_chain ⟨"success", "ok", [⟨"c", []⟩], 1⟩ =
      Except.ok [⟨"c", []⟩] :=
  ⟨(extractors_spec ⟨"error", "Error loading PDF: boom", [], 0⟩
      ⟨"success", "ok", [⟨"c", []⟩], 1⟩).2.1 rfl,
   (extractors_spec ⟨"error", "Error loading PDF: boom", [], 0⟩
      ⟨"success", "ok", [⟨"c", []⟩], 1⟩).2.2.2.2.2 (by decide)⟩

end RagPipeline
